import Mathlib

/-!
Verification of the appointment/calendar reconciliation workflow of the
`crm-advocacia` backend, a shallow embedding of `src/api/google_calendar.py`
and the appointment endpoints of `src/api/server.py`.

Modelling conventions:
- Process configuration (the `GOOGLE_CREDENTIALS_JSON` and `GOOGLE_CALENDAR_ID`
  environment variables) is an explicit `Config` value.
- The Google API client built by `build(...)` is an explicit `Provider` value:
  a record of the five provider endpoints used by the code, each returning
  `Except String _` (an exception or a result).
- Every calendar-client operation returns the list of provider calls it
  attempted together with its outcome, so that "raises before any provider
  call" and "exactly one delete call" are statable.
- Python `datetime` values are modelled as minutes since the civil epoch
  (`strptimeMin`), with `YYYY-MM-DD` parsed by the standard civil-from-days
  formula, so `inicio + timedelta(minutes=d)` is plain addition.
- Calendar dates in the slot search are modelled as Gregorian day numbers,
  with `weekday d = d % 7` (day 0 a Monday), matching Python's
  `date.weekday()` (Monday = 0, Saturday = 5, Sunday = 6).
-/

/-- The process configuration read by `api/google_calendar.py` at import time:
`GOOGLE_CREDENTIALS_JSON` (line 20) and `GOOGLE_CALENDAR_ID` (line 14), both
defaulting to the empty string when absent. -/
structure Config where
  credsJson : String
  calendarId : String
deriving DecidableEq

/-- Timestamp field of an outbound event body: `{"dateTime": ..., "timeZone": ...}`
with the datetime modelled as minutes since the civil epoch. -/
structure EventoTime where
  dateTime : Nat
  timeZone : String
deriving DecidableEq

/-- Outbound event body as built by `criar_evento`/`atualizar_evento`
(`google_calendar.py` lines 42-57, 75-85): summary, description, start, end,
attendee emails.  The constant reminder overrides are the same for every event
and are omitted. -/
structure Evento where
  summary : String
  description : String
  start : EventoTime
  end_ : EventoTime
  attendees : List String
deriving DecidableEq

/-- Start field of an event item in a provider list response:
`ev.get("start", {})` may be absent, and its `"dateTime"` key may be absent
(all-day events carry `"date"` instead). -/
structure GStart where
  dateTime : Option String
deriving DecidableEq

/-- An event item in a provider `events().list` response, restricted to the
field the code reads (`google_calendar.py` line 120). -/
structure GEvent where
  start : Option GStart
deriving DecidableEq

/-- One attempted call to the Google Calendar provider. -/
inductive CalCall where
  | insert (calendarId : String) (body : Evento)
  | get (calendarId eventId : String)
  | update (calendarId eventId : String) (body : Evento)
  | delete (calendarId eventId : String)
  | listEvents (calendarId timeMin timeMax : String)
deriving DecidableEq

/-- The provider behind `service.events()`: each endpoint either returns a
value or raises (modelled as `Except.error`). -/
structure Provider where
  insert : String → Evento → Except String String
  get : String → String → Except String Evento
  update : String → String → Evento → Except String Unit
  delete : String → String → Except String Unit
  listEvents : String → String → String → Except String (List GEvent)

/-- Python truthiness filter on an optional string: `if s:` succeeds exactly
when the value is present and non-empty; `truthyVal` returns the value in
that case and `none` otherwise. -/
def truthyVal : Option String → Option String
  | none => none
  | some s => if s = "" then none else some s

/-- Whether an `Except` value is a success. -/
def exceptIsOk {α : Type} : Except String α → Bool
  | .ok _ => true
  | .error _ => false

/-- Numeric value of a decimal digit character. -/
def digitVal (c : Char) : Nat := c.toNat - 48

/-- Decimal number denoted by a list of digit characters. -/
def parseNat (cs : List Char) : Nat := cs.foldl (fun n c => n * 10 + digitVal c) 0

/-- Gregorian day number of a civil date (days-from-civil formula), used to
model Python `date`/`datetime` arithmetic including day rollover. -/
def diasDesdeCivil (y m d : Nat) : Nat :=
  let y2 := if m ≤ 2 then y - 1 else y
  let era := y2 / 400
  let yoe := y2 % 400
  let mp := (m + 9) % 12
  let doy := (153 * mp + 2) / 5 + d - 1
  let doe := yoe * 365 + yoe / 4 - yoe / 100 + doy
  era * 146097 + doe

/-- Day number of a `YYYY-MM-DD` date string. -/
def dataToDias (data : String) : Nat :=
  match data.toList with
  | [a, b, c, d, _, e, f, _, g, h] =>
      diasDesdeCivil (parseNat [a, b, c, d]) (parseNat [e, f]) (parseNat [g, h])
  | _ => 0

/-- Minutes-of-day denoted by an `HH:MM` string. -/
def horaToMin (s : String) : Nat :=
  match s.toList with
  | [h1, h2, _, m1, m2] => (digitVal h1 * 10 + digitVal h2) * 60 + (digitVal m1 * 10 + digitVal m2)
  | _ => 0

/-- Model of `datetime.strptime(f"{data} {hora}", "%Y-%m-%d %H:%M")`
(`google_calendar.py` line 39): minutes since the civil epoch. -/
def strptimeMin (data hora : String) : Nat := 1440 * dataToDias data + horaToMin hora

/-- The message of the `RuntimeError` raised by `_get_service` when the
credential is missing (`google_calendar.py` line 22). -/
def credsMsg : String := "GOOGLE_CREDENTIALS_JSON nao configurada!"

/-- Model of `_get_service` (`google_calendar.py` lines 18-25): raises when
`GOOGLE_CREDENTIALS_JSON` is empty, otherwise yields the authenticated client.
Note the fixed calendar identifier `CALENDAR_ID` is NOT checked here or
anywhere else. -/
def get_service (cfg : Config) : Except String Unit :=
  if cfg.credsJson = "" then .error credsMsg else .ok ()

/-- The fixed timezone hard-coded into every event body. -/
def timeZoneFixa : String := "America/Fortaleza"

/-- Model of `criar_evento` (`google_calendar.py` lines 28-61): builds the
event body and inserts it, returning the provider calls attempted and the
outcome (the provider-assigned event id). -/
def criar_evento (cfg : Config) (prov : Provider) (titulo data hora descricao : String)
    (email_convidado : Option String) (duracao_min : Nat) :
    List CalCall × Except String String :=
  match get_service cfg with
  | .error e => ([], .error e)
  | .ok _ =>
    let inicio := strptimeMin data hora
    let fim := inicio + duracao_min
    let evento : Evento :=
      { summary := titulo
        description := descricao
        start := ⟨inicio, timeZoneFixa⟩
        end_ := ⟨fim, timeZoneFixa⟩
        attendees := match truthyVal email_convidado with
          | some e => [e]
          | none => [] }
    ([CalCall.insert cfg.calendarId evento], prov.insert cfg.calendarId evento)

/-- Model of `atualizar_evento` (`google_calendar.py` lines 64-89): fetches the
existing event, overlays the provided truthy fields (`if titulo:`,
`if descricao:`, `if data and hora:`), and writes the result back. -/
def atualizar_evento (cfg : Config) (prov : Provider) (event_id : String)
    (data hora titulo descricao : Option String) (duracao_min : Nat) :
    List CalCall × Except String Bool :=
  match get_service cfg with
  | .error e => ([], .error e)
  | .ok _ =>
    match prov.get cfg.calendarId event_id with
    | .error e => ([CalCall.get cfg.calendarId event_id], .error e)
    | .ok evento0 =>
      let evento1 := match truthyVal titulo with
        | some t => { evento0 with summary := t }
        | none => evento0
      let evento2 := match truthyVal descricao with
        | some s => { evento1 with description := s }
        | none => evento1
      let evento3 := match truthyVal data, truthyVal hora with
        | some d, some h =>
          let inicio := strptimeMin d h
          { evento2 with start := ⟨inicio, timeZoneFixa⟩
                         end_ := ⟨inicio + duracao_min, timeZoneFixa⟩ }
        | _, _ => evento2
      ([CalCall.get cfg.calendarId event_id, CalCall.update cfg.calendarId event_id evento3],
       match prov.update cfg.calendarId event_id evento3 with
       | .ok _ => .ok true
       | .error e => .error e)

/-- Model of `cancelar_evento` (`google_calendar.py` lines 92-97): deletes the
event with the given id. -/
def cancelar_evento (cfg : Config) (prov : Provider) (event_id : String) :
    List CalCall × Except String Bool :=
  match get_service cfg with
  | .error e => ([], .error e)
  | .ok _ =>
    ([CalCall.delete cfg.calendarId event_id],
     match prov.delete cfg.calendarId event_id with
     | .ok _ => .ok true
     | .error e => .error e)

/-- The `"dateTime"` string extracted from a provider event item:
`ev.get("start", {}).get("dateTime", "")` (`google_calendar.py` line 120). -/
def startStr (ev : GEvent) : String :=
  match ev.start with
  | none => ""
  | some s => s.dateTime.getD ""

/-- Model of `datetime.fromisoformat(start).strftime("%H:%M")` for an ISO
dateTime string `YYYY-MM-DDTHH:MM:SS...` as returned by the provider: the
five characters at positions 11-15. -/
def horaHHMM (s : String) : String := String.mk ((s.toList.drop 11).take 5)

/-- The `timeMin` bound sent to the provider: `inicio_dia.isoformat() + "-03:00"`
for the day's 00:00 (`google_calendar.py` lines 107, 112). -/
def timeMinOf (data : String) : String := data ++ "T00:00:00-03:00"

/-- The `timeMax` bound sent to the provider: `fim_dia.isoformat() + "-03:00"`
for the day's 23:59 (`google_calendar.py` lines 108, 113). -/
def timeMaxOf (data : String) : String := data ++ "T23:59:00-03:00"

/-- The accumulation loop of `listar_horarios_ocupados`
(`google_calendar.py` lines 118-123): for each event whose start carries a
non-empty `dateTime`, append its `HH:MM` time-of-day. -/
def ocupadosLoop (items : List GEvent) (acc : List String) : List String :=
  items.foldl
    (fun acc ev => if startStr ev ≠ "" then acc ++ [horaHHMM (startStr ev)] else acc) acc

/-- Model of `listar_horarios_ocupados` (`google_calendar.py` lines 100-125):
lists the day's single events from the provider and extracts the busy
times-of-day. -/
def listar_horarios_ocupados (cfg : Config) (prov : Provider) (data : String) :
    List CalCall × Except String (List String) :=
  match get_service cfg with
  | .error e => ([], .error e)
  | .ok _ =>
    let call := CalCall.listEvents cfg.calendarId (timeMinOf data) (timeMaxOf data)
    match prov.listEvents cfg.calendarId (timeMinOf data) (timeMaxOf data) with
    | .error e => ([call], .error e)
    | .ok items => ([call], .ok (ocupadosLoop items []))

/-- The fixed candidate times-of-day of the slot search
(`google_calendar.py` line 132). -/
def HORARIOS : List String := ["08:00", "09:00", "10:00", "11:00", "13:00", "14:00", "15:00", "16:00"]

/-- A free slot: a (day number, time-of-day string) pair, the model of the
`{"data": data_str, "hora": hora}` dictionaries returned by the search. -/
abbrev Slot := Nat × String

/-- The inner loop of `proximos_slots_disponiveis_calendar`
(`google_calendar.py` lines 143-147): scan the candidate times of day `d`,
appending each free one to the accumulated result; return `true` (early
`return resultado`) as soon as the accumulated result reaches `quantidade` —
checked only AFTER appending. -/
def addSlots (quantidade d : Nat) (ocupados : List String) :
    List String → List Slot → List Slot × Bool
  | [], acc => (acc, false)
  | hora :: hs, acc =>
    if hora ∈ ocupados then addSlots quantidade d ocupados hs acc
    else
      let acc2 := acc ++ [(d, hora)]
      if quantidade ≤ acc2.length then (acc2, true)
      else addSlots quantidade d ocupados hs acc2

/-- The outer loop of `proximos_slots_disponiveis_calendar`
(`google_calendar.py` lines 136-147): scan the candidate days in order,
skipping weekends (`data.weekday() >= 5`), stopping when the inner loop
signalled early return. -/
def loopDias (busy : Nat → List String) (quantidade : Nat) :
    List Nat → List Slot → List Slot
  | [], acc => acc
  | d :: ds, acc =>
    if d % 7 ≥ 5 then loopDias busy quantidade ds acc
    else
      match addSlots quantidade d (busy d) HORARIOS acc with
      | (acc2, true) => acc2
      | (acc2, false) => loopDias busy quantidade ds acc2

/-- Model of `proximos_slots_disponiveis_calendar`
(`google_calendar.py` lines 128-149), with dates as day numbers
(weekday = d % 7, day 0 a Monday), `hoje` the current date, and the per-day
busy query `listar_horarios_ocupados(data_str)` abstracted as the assignment
`busy : Nat → List String`. -/
def proximos_slots_disponiveis_calendar (busy : Nat → List String) (hoje quantidade : Nat) :
    List Slot :=
  loopDias busy quantidade ((List.range 30).map (fun i => hoje + i)) []

/-- A client row of the `clientes` table, restricted to the columns the
appointment workflow reads (`server.py` line 323); `nome` is NOT NULL,
`email` is nullable. -/
structure Cliente where
  id : Nat
  nome : String
  telefone : String
  email : Option String
deriving DecidableEq

/-- An appointment row of the `agendamentos` table (`server.py` lines 50-60,
65), timestamps omitted. -/
structure Agendamento where
  id : Nat
  cliente_id : Nat
  data_consulta : String
  hora_consulta : String
  tipo_consulta : String
  status : String
  observacoes : Option String
  google_event_id : Option String
deriving DecidableEq

/-- The relational store as seen by the appointment endpoints: the two tables
plus the next SERIAL id. -/
structure Store where
  clientes : List Cliente
  agendamentos : List Agendamento
  nextId : Nat
deriving DecidableEq

/-- The request body of `POST /api/agendamentos` (`server.py` lines 147-149). -/
structure AgendamentoCreate where
  cliente_id : Nat
  data : String
  hora : String
  tipo : String
  observacoes : Option String
deriving DecidableEq

/-- The `tipo_label` mapping applied with `.get(data.tipo, data.tipo)`
(`server.py` lines 328-329): three known labels, any other type falls back to
the raw type string. -/
def tipoLabel (tipo : String) : String :=
  if tipo = "primeira_consulta" then "1ª Consulta"
  else if tipo = "retorno" then "Retorno"
  else if tipo = "urgente" then "Urgente"
  else tipo

/-- The client name used for the event title (`server.py` line 326):
`cliente_dict.get("nome", "Cliente") or "Cliente"` — the placeholder when the
client row is absent or its name is empty. -/
def nomeCliente (row : Option Cliente) : String :=
  match row with
  | none => "Cliente"
  | some c => if c.nome = "" then "Cliente" else c.nome

/-- The invitee email (`server.py` line 327):
`cliente_dict.get("email") or None` — dropped when absent or empty. -/
def emailCliente (row : Option Cliente) : Option String :=
  match row with
  | none => none
  | some c => truthyVal c.email

/-- The event title derived in `criar_agendamento` (`server.py` line 329):
`f"{tipo_label.get(data.tipo, data.tipo)} — {nome}"`. -/
def makeTitulo (tipo : String) (row : Option Cliente) : String :=
  tipoLabel tipo ++ " — " ++ nomeCliente row

/-- One store/calendar step of the create workflow, in execution order. -/
inductive Ev where
  | dbSelectCliente (cliente_id : Nat)
  | dbInsertAgendamento (id : Nat)
  | calCreate (titulo data hora : String)
  | dbSetEventId (id : Nat) (event_id : String)
  | dbCommit
deriving DecidableEq

/-- The JSON body returned by `criar_agendamento`: `{"ok": True, "id": ag_id}`. -/
structure RespCriar where
  ok : Bool
  id : Nat
deriving DecidableEq

/-- Outcome of the create workflow: the ordered trace of store/calendar steps,
the final (committed) store, the recorded calendar outcome, and the response. -/
structure ResultCriar where
  trace : List Ev
  store : Store
  calResult : Except String String
  resp : RespCriar

/-- Model of `criar_agendamento` (`server.py` lines 318-349): look up the
client, derive title/description/email, INSERT the appointment row, attempt
the calendar create (its failure caught and logged, lines 340-344), set
`google_event_id` on success, then COMMIT and answer `{"ok": True, "id": ...}`. -/
def criar_agendamento (cfg : Config) (prov : Provider) (store : Store)
    (req : AgendamentoCreate) : ResultCriar :=
  let row := store.clientes.find? (fun c => c.id == req.cliente_id)
  let titulo := makeTitulo req.tipo row
  let descricao := req.observacoes.getD ""
  let email := emailCliente row
  let ag_id := store.nextId
  let novo : Agendamento :=
    { id := ag_id
      cliente_id := req.cliente_id
      data_consulta := req.data
      hora_consulta := req.hora
      tipo_consulta := req.tipo
      status := "ativo"
      observacoes := req.observacoes
      google_event_id := none }
  let store1 : Store :=
    { store with agendamentos := store.agendamentos ++ [novo], nextId := ag_id + 1 }
  match criar_evento cfg prov titulo req.data req.hora descricao email 60 with
  | (_, .ok event_id) =>
    let ags2 := store1.agendamentos.map
      (fun a => if a.id == ag_id then { a with google_event_id := some event_id } else a)
    let store2 : Store := { store1 with agendamentos := ags2 }
    { trace := [.dbSelectCliente req.cliente_id, .dbInsertAgendamento ag_id,
                .calCreate titulo req.data req.hora, .dbSetEventId ag_id event_id, .dbCommit]
      store := store2
      calResult := .ok event_id
      resp := ⟨true, ag_id⟩ }
  | (_, .error e) =>
    { trace := [.dbSelectCliente req.cliente_id, .dbInsertAgendamento ag_id,
                .calCreate titulo req.data req.hora, .dbCommit]
      store := store1
      calResult := .error e
      resp := ⟨true, ag_id⟩ }

/-- Outcome of the status-update and delete endpoints: final store, the event
ids passed to `cancelar_evento` (the Calendar Client boundary), and the
`{"ok": True}` response. -/
structure ResultMut where
  store : Store
  clientCalls : List String
  ok : Bool
deriving DecidableEq

/-- Model of `atualizar_status` (`server.py` lines 351-365): read the row's
`google_event_id`, UPDATE the status, COMMIT, then — only if the row existed,
its `google_event_id` is truthy, and the new status is `"cancelado"` — call
`cancelar_evento` once with the stored reference (its own failure caught). -/
def atualizar_status (store : Store) (id : Nat) (status : String) : ResultMut :=
  let row := store.agendamentos.find? (fun a => a.id == id)
  let ags1 := store.agendamentos.map
    (fun a => if a.id == id then { a with status := status } else a)
  let store1 : Store := { store with agendamentos := ags1 }
  let calls :=
    match row with
    | some r =>
      match truthyVal r.google_event_id with
      | some eid => if status = "cancelado" then [eid] else []
      | none => []
    | none => []
  { store := store1, clientCalls := calls, ok := true }

/-- Model of `deletar_agendamento` (`server.py` lines 367-380): read the row's
`google_event_id`, DELETE the row, COMMIT, then — if the row existed and its
`google_event_id` is truthy — call `cancelar_evento` once with the stored
reference (its own failure caught). -/
def deletar_agendamento (store : Store) (id : Nat) : ResultMut :=
  let row := store.agendamentos.find? (fun a => a.id == id)
  let store1 : Store :=
    { store with agendamentos := store.agendamentos.filter (fun a => !(a.id == id)) }
  let calls :=
    match row with
    | some r =>
      match truthyVal r.google_event_id with
      | some eid => [eid]
      | none => []
    | none => []
  { store := store1, clientCalls := calls, ok := true }

/-- The store fallback of the busy-times endpoint (`server.py` lines 393-399):
`SELECT hora_consulta FROM agendamentos WHERE data_consulta=%s AND status='ativo'`. -/
def horariosOcupadosFallback (store : Store) (data : String) : List String :=
  (store.agendamentos.filter
    (fun a => a.data_consulta == data && a.status == "ativo")).map (fun a => a.hora_consulta)

/-- Model of the `GET /api/horarios-ocupados/{data}` endpoint
(`server.py` lines 383-401): answer from the calendar, falling back to the
store's active rows for that date when the calendar raises. -/
def horarios_ocupados (cfg : Config) (prov : Provider) (store : Store) (data : String) :
    List String :=
  match (listar_horarios_ocupados cfg prov data).2 with
  | .ok l => l
  | .error _ => horariosOcupadosFallback store data

/-- An HTTP error response raised by an endpoint. -/
structure HTTPError where
  code : Nat
  detail : String
deriving DecidableEq

/-- Model of the `GET /api/horarios-disponiveis` endpoint
(`server.py` lines 403-411), taking the outcome of
`proximos_slots_disponiveis_calendar(quantidade=10)` as argument: on success
return the slots, on failure raise `HTTPException(500, str(e))`. -/
def horarios_disponiveis (slotsRes : Except String (List Slot)) : Except HTTPError (List Slot) :=
  match slotsRes with
  | .ok s => .ok s
  | .error e => .error ⟨500, e⟩

/-- The TypeLabel table as the spec states it (§4.3): first-visit, follow-up
and urgent map to their labels; any other value falls back to the raw type. -/
def tipoLabelsSpec : List (String × String) :=
  [("primeira_consulta", "1ª Consulta"), ("retorno", "Retorno"), ("urgente", "Urgente")]

/-- Title derivation exactly as the spec words it: `"{TypeLabel} — {ClientName}"`
with TypeLabel looked up in the table (defaulting to the raw type) and
ClientName defaulting to the generic placeholder when the client record lacks
a name. -/
def tituloSpec (tipo : String) (nomeRegistro : Option String) : String :=
  let rotulo :=
    match tipoLabelsSpec.lookup tipo with
    | some r => r
    | none => tipo
  let nome :=
    match nomeRegistro with
    | some n => if n = "" then "Cliente" else n
    | none => "Cliente"
  rotulo ++ " — " ++ nome

/-- Non-decreasing (date, time) order on slots, with times compared by their
minute-of-day value. -/
def slotLe (a b : Slot) : Prop :=
  a.1 < b.1 ∨ (a.1 = b.1 ∧ horaToMin a.2 ≤ horaToMin b.2)

/-- The free slots a single day contributes: the candidate times not in the
busy set, paired with the day. -/
def freeSlotsDia (d : Nat) (ocupados hs : List String) : List Slot :=
  (hs.filter (fun hora => ¬ hora ∈ ocupados)).map (fun hora => (d, hora))

/-- All free slots of a day list, weekends contributing nothing. -/
def daysSlots (busy : Nat → List String) : List Nat → List Slot
  | [] => []
  | d :: ds =>
    (if d % 7 ≥ 5 then [] else freeSlotsDia d (busy d) HORARIOS) ++ daysSlots busy ds

/-- A fetched calendar event used as provider fixture. -/
def ev0 : Evento := ⟨"Reuniao", "Notas", ⟨100, timeZoneFixa⟩, ⟨160, timeZoneFixa⟩, []⟩

/-- A provider on which every endpoint succeeds. -/
def provTest : Provider :=
  { insert := fun _ _ => .ok "E1"
    get := fun _ _ => .ok ev0
    update := fun _ _ _ => .ok ()
    delete := fun _ _ => .ok ()
    listEvents := fun _ _ _ => .ok [] }

/-- A provider whose busy-times listing raises. -/
def provDown : Provider := { provTest with listEvents := fun _ _ _ => .error "provider indisponivel" }

/-- A configuration with both the credential and the calendar id present. -/
def cfgOk : Config := ⟨"svc-creds", "cal-1"⟩

/-- A list item with a timed start. -/
def gev1 : GEvent := ⟨some ⟨some "2025-01-06T09:00:00-03:00"⟩⟩

/-- A list item with an all-day start (no dateTime key). -/
def gevAllDay : GEvent := ⟨some ⟨none⟩⟩

/-- A list item with no start object at all. -/
def gevNoStart : GEvent := ⟨none⟩

/-- A provider whose busy-times listing answers with one timed event, one
all-day event and one event lacking a start. -/
def provList : Provider := { provTest with listEvents := fun _ _ _ => .ok [gev1, gevAllDay, gevNoStart] }

/-- An active appointment on 2025-01-06 at 09:00. -/
def agAtivo : Agendamento := ⟨1, 1, "2025-01-06", "09:00", "retorno", "ativo", none, none⟩

/-- A cancelled appointment on the same date. -/
def agCancelado : Agendamento := ⟨2, 1, "2025-01-06", "10:00", "retorno", "cancelado", none, none⟩

/-- An active appointment on another date. -/
def agOutroDia : Agendamento := ⟨3, 1, "2025-01-07", "11:00", "retorno", "ativo", none, none⟩

/-- A store holding one client and the three appointments above. -/
def storeW : Store := ⟨[⟨1, "Maria", "5588", none⟩], [agAtivo, agCancelado, agOutroDia], 4⟩

/-- Whether a workflow step is the Calendar Client create call. -/
def isCalCreate : Ev → Bool
  | .calCreate _ _ _ => true
  | _ => false

/-- Whether a workflow step is the store commit. -/
def isCommit : Ev → Bool
  | .dbCommit => true
  | _ => false

/-- Whether a workflow step is the appointment INSERT. -/
def isInsert : Ev → Bool
  | .dbInsertAgendamento _ => true
  | _ => false

/-- Whether some store commit occurs strictly before the first Calendar Client
call in a trace. -/
def commitPrecedesCal (tr : List Ev) : Bool :=
  (tr.takeWhile (fun e => !(isCalCreate e))).any isCommit

/-- A well-formed create request against the fixture store. -/
def req0 : AgendamentoCreate := ⟨1, "2025-01-06", "08:00", "urgente", none⟩

/-- Mapping a function that fixes every element of a list leaves it unchanged. -/
theorem map_eq_self_of_forall {α : Type} (l : List α) (f : α → α) (h : ∀ a ∈ l, f a = a) :
    l.map f = l := by
  induction l with
  | nil => rfl
  | cons x xs ih =>
    simp only [List.map_cons, h x (by simp)]
    rw [ih (fun a ha => h a (by simp [ha]))]

/-- The accumulation loop of the busy-times listing is the filter-then-map of
the items on a non-empty start dateTime. -/
theorem ocupadosLoop_eq (items : List GEvent) : ∀ acc : List String,
    ocupadosLoop items acc =
      acc ++ (items.filter (fun ev => startStr ev ≠ "")).map (fun ev => horaHHMM (startStr ev)) := by
  induction items with
  | nil => intro acc; simp [ocupadosLoop]
  | cons ev items ih =>
    intro acc
    have hstep : ocupadosLoop (ev :: items) acc =
        ocupadosLoop items (if startStr ev ≠ "" then acc ++ [horaHHMM (startStr ev)] else acc) :=
      rfl
    rw [hstep]
    by_cases h : startStr ev = ""
    · rw [if_neg (not_not_intro h), ih acc, List.filter_cons]
      simp [h]
    · rw [if_pos h, ih (acc ++ [horaHHMM (startStr ev)]), List.filter_cons]
      simp [h, List.append_assoc]

/-- C5: the event title derived by the create workflow equals the spec's
`"{TypeLabel} — {ClientName}"` formula — first-visit, follow-up and urgent
types map to their labels, any unrecognized type falls back to the raw type
string, the client name falls back to the `"Cliente"` placeholder when the
client record is absent or has an empty name; in particular type `"urgente"`
with client `"Maria"` yields `"Urgente — Maria"` and unrecognized `"checkup"`
yields `"checkup — Maria"`. -/
theorem makeTitulo_matches_spec :
    (∀ (tipo : String) (row : Option Cliente),
        makeTitulo tipo row = tituloSpec tipo (row.map (fun c => c.nome)))
    ∧ makeTitulo "urgente" (some ⟨1, "Maria", "5588", none⟩) = "Urgente — Maria"
    ∧ makeTitulo "checkup" (some ⟨1, "Maria", "5588", none⟩) = "checkup — Maria" := by
  refine ⟨?_, by decide, by decide⟩
  intro tipo row
  have hl : tipoLabel tipo =
      (match tipoLabelsSpec.lookup tipo with | some r => r | none => tipo) := by
    by_cases h1 : tipo = "primeira_consulta"
    · subst h1; rfl
    · by_cases h2 : tipo = "retorno"
      · subst h2; rfl
      · by_cases h3 : tipo = "urgente"
        · subst h3; rfl
        · have b1 : (tipo == "primeira_consulta") = false := beq_eq_false_iff_ne.mpr h1
          have b2 : (tipo == "retorno") = false := beq_eq_false_iff_ne.mpr h2
          have b3 : (tipo == "urgente") = false := beq_eq_false_iff_ne.mpr h3
          simp [tipoLabel, tipoLabelsSpec, List.lookup, h1, h2, h3, b1, b2, b3]
  cases row with
  | none => simp [makeTitulo, tituloSpec, nomeCliente, hl]
  | some c => simp [makeTitulo, tituloSpec, nomeCliente, hl]

/-- C7 (amended): every calendar operation — create, update, delete, list busy
times — fails closed, raising before any provider call is attempted, when the
service credential is absent; the calendar identifier is never checked. -/
theorem cal_ops_fail_closed_missing_creds (cfg : Config) (prov : Provider)
    (titulo data hora descricao : String) (email : Option String)
    (event_id : String) (d2 h2 t2 ds2 : Option String) (dur : Nat)
    (h : cfg.credsJson = "") :
    criar_evento cfg prov titulo data hora descricao email dur = ([], .error credsMsg)
    ∧ atualizar_evento cfg prov event_id d2 h2 t2 ds2 dur = ([], .error credsMsg)
    ∧ cancelar_evento cfg prov event_id = ([], .error credsMsg)
    ∧ listar_horarios_ocupados cfg prov data = ([], .error credsMsg) := by
  refine ⟨?_, ?_, ?_, ?_⟩ <;>
    simp [criar_evento, atualizar_evento, cancelar_evento, listar_horarios_ocupados,
      get_service, h]

/-- Witness for C7's theorem at a concrete configuration with an empty
credential. -/
theorem cal_ops_fail_closed_missing_creds_witness :
    (Config.mk "" "cal-1").credsJson = ""
    ∧ criar_evento ⟨"", "cal-1"⟩ provTest "T" "2025-01-06" "08:00" "" none 60
        = ([], .error credsMsg) := by
  refine ⟨rfl, ?_⟩
  exact (cal_ops_fail_closed_missing_creds ⟨"", "cal-1"⟩ provTest "T" "2025-01-06" "08:00" ""
    none "EV1" none none none none 60 rfl).1

/-- C7 counterexample: with the credential present but the calendar identifier
absent (empty), the create operation does NOT raise — it proceeds and attempts
a provider call (with the empty calendar id), refuting the claim that a
missing calendar identifier fails closed before any provider call. -/
theorem missing_calendar_id_no_failfast_counterexample :
    (criar_evento ⟨"svc-creds", ""⟩ provTest "T" "2025-01-06" "08:00" "" none 60).1.length = 1
    ∧ (criar_evento ⟨"svc-creds", ""⟩ provTest "T" "2025-01-06" "08:00" "" none 60).2
        = Except.ok "E1" := by
  exact ⟨rfl, rfl⟩

/-- C9: when the appointment id is absent from the store, both the
status-update and the delete endpoint answer `{"ok": True}`, pass nothing to
the Calendar Client, and leave the store unchanged. -/
theorem missing_id_mutations_noop (store : Store) (id : Nat) (status : String)
    (h : ∀ a ∈ store.agendamentos, a.id ≠ id) :
    atualizar_status store id status = ⟨store, [], true⟩
    ∧ deletar_agendamento store id = ⟨store, [], true⟩ := by
  have hfind : store.agendamentos.find? (fun a => a.id == id) = none :=
    List.find?_eq_none.mpr (fun a ha => by simp [h a ha])
  have hmap : store.agendamentos.map
      (fun a => if a.id == id then { a with status := status } else a) = store.agendamentos :=
    map_eq_self_of_forall _ _ (fun a ha => by simp [h a ha])
  have hfil : store.agendamentos.filter (fun a => !(a.id == id)) = store.agendamentos :=
    List.filter_eq_self.mpr (fun a ha => by simp [h a ha])
  constructor
  · unfold atualizar_status
    rw [hfind, hmap]
  · unfold deletar_agendamento
    rw [hfind, hfil]

/-- Witness for C9's theorem: id 7 is absent from the fixture store. -/
theorem missing_id_mutations_noop_witness :
    (∀ a ∈ storeW.agendamentos, a.id ≠ 7)
    ∧ atualizar_status storeW 7 "cancelado" = ⟨storeW, [], true⟩
    ∧ deletar_agendamento storeW 7 = ⟨storeW, [], true⟩ := by
  have h : ∀ a ∈ storeW.agendamentos, a.id ≠ 7 := by decide
  obtain ⟨h1, h2⟩ := missing_id_mutations_noop storeW 7 "cancelado" h
  exact ⟨h, h1, h2⟩

/-- C10: the busy-times listing keeps exactly the events whose start carries a
non-empty dateTime — all-day or start-less events contribute nothing — and
each kept event contributes its start time-of-day formatted HH:MM. -/
theorem listar_horarios_filtra_dateTime (cfg : Config) (prov : Provider) (data : String)
    (items : List GEvent)
    (hcreds : cfg.credsJson ≠ "")
    (hresp : prov.listEvents cfg.calendarId (timeMinOf data) (timeMaxOf data) = .ok items)
    (_hwf : ∀ ev ∈ items, startStr ev = "" ∨ 16 ≤ (startStr ev).length) :
    listar_horarios_ocupados cfg prov data =
      ([CalCall.listEvents cfg.calendarId (timeMinOf data) (timeMaxOf data)],
       .ok ((items.filter (fun ev => startStr ev ≠ "")).map (fun ev => horaHHMM (startStr ev)))) := by
  simp [listar_horarios_ocupados, get_service, hcreds, hresp, ocupadosLoop_eq items []]

/-- Witness for C10's theorem: of three provider items — one timed event, one
all-day event, one start-less event — only the timed event's HH:MM remains. -/
theorem listar_horarios_filtra_dateTime_witness :
    cfgOk.credsJson ≠ ""
    ∧ listar_horarios_ocupados cfgOk provList "2025-01-06" =
        ([CalCall.listEvents "cal-1" (timeMinOf "2025-01-06") (timeMaxOf "2025-01-06")],
         .ok ["09:00"]) := by
  refine ⟨by decide, ?_⟩
  rw [listar_horarios_filtra_dateTime cfgOk provList "2025-01-06" [gev1, gevAllDay, gevNoStart]
    (by decide) rfl (by decide)]
  rfl

/-- C8: when the external busy-times query raises, the busy-times endpoint
answers from the store — exactly the `hora_consulta` values of that date's
rows with status `"ativo"` — and when the free-slots search raises, the
free-slots endpoint raises HTTP 500 and never answers with a list. -/
theorem availability_endpoints_fallback_or_error :
    (∀ (cfg : Config) (prov : Provider) (store : Store) (data : String),
        exceptIsOk (listar_horarios_ocupados cfg prov data).2 = false →
          horarios_ocupados cfg prov store data =
            (store.agendamentos.filter
              (fun a => a.data_consulta == data && a.status == "ativo")).map
              (fun a => a.hora_consulta))
    ∧ (∀ e : String,
        horarios_disponiveis (Except.error e) = Except.error ⟨500, e⟩
        ∧ ∀ l : List Slot, horarios_disponiveis (Except.error e) ≠ Except.ok l) := by
  constructor
  · intro cfg prov store data hfail
    unfold horarios_ocupados horariosOcupadosFallback
    cases hres : (listar_horarios_ocupados cfg prov data).2 with
    | ok l => rw [hres] at hfail; simp [exceptIsOk] at hfail
    | error e => rfl
  · intro e
    exact ⟨rfl, fun l h => by simp [horarios_disponiveis] at h⟩

/-- Witness for C8's theorem: a down provider makes the busy-times endpoint
answer the single active 2025-01-06 row of the fixture store, and a failed
slot search yields HTTP 500. -/
theorem availability_endpoints_fallback_or_error_witness :
    exceptIsOk (listar_horarios_ocupados cfgOk provDown "2025-01-06").2 = false
    ∧ horarios_ocupados cfgOk provDown storeW "2025-01-06" = ["09:00"]
    ∧ horarios_disponiveis (Except.error "down") = Except.error ⟨500, "down"⟩ := by
  refine ⟨by decide, ?_, ?_⟩
  · rw [availability_endpoints_fallback_or_error.1 cfgOk provDown storeW "2025-01-06" (by decide)]
    rfl
  · exact (availability_endpoints_fallback_or_error.2 "down").1


/-- C1: with a valid client reference, after the create request the appointment
row is in the store with status active and the request answers
`{"ok": True, "id": ...}` whatever the calendar outcome; when the calendar
create failed, the row's `google_event_id` is null. -/
theorem criar_agendamento_row_persisted (cfg : Config) (prov : Provider) (store : Store)
    (req : AgendamentoCreate) (c : Cliente)
    (_hc : store.clientes.find? (fun x => x.id == req.cliente_id) = some c) :
    ∃ row, row ∈ (criar_agendamento cfg prov store req).store.agendamentos
      ∧ row.id = store.nextId
      ∧ row.cliente_id = req.cliente_id
      ∧ row.data_consulta = req.data
      ∧ row.hora_consulta = req.hora
      ∧ row.tipo_consulta = req.tipo
      ∧ row.status = "ativo"
      ∧ (criar_agendamento cfg prov store req).resp = ⟨true, store.nextId⟩
      ∧ ∀ e, (criar_agendamento cfg prov store req).calResult = Except.error e →
          row.google_event_id = none := by
  simp only [criar_agendamento]
  split
  case _ calls event_id heq =>
    refine ⟨⟨store.nextId, req.cliente_id, req.data, req.hora, req.tipo, "ativo",
      req.observacoes, some event_id⟩, ?_, rfl, rfl, rfl, rfl, rfl, rfl, rfl, ?_⟩
    · have hmem : (⟨store.nextId, req.cliente_id, req.data, req.hora, req.tipo, "ativo",
          req.observacoes, none⟩ : Agendamento) ∈ store.agendamentos ++
            [⟨store.nextId, req.cliente_id, req.data, req.hora, req.tipo, "ativo",
              req.observacoes, none⟩] := by simp
      have := List.mem_map_of_mem
        (fun a : Agendamento =>
          if a.id == store.nextId then { a with google_event_id := some event_id } else a) hmem
      simpa using this
    · intro e he
      simp at he
  case _ calls e heq =>
    refine ⟨⟨store.nextId, req.cliente_id, req.data, req.hora, req.tipo, "ativo",
      req.observacoes, none⟩, ?_, rfl, rfl, rfl, rfl, rfl, rfl, rfl, fun _ _ => rfl⟩
    simp

/-- Witness for C1's theorem: a store holding client 1, a configuration with
the credential missing — so the calendar create fails — still persists the
row, with a null event reference. -/
theorem criar_agendamento_row_persisted_witness :
    storeW.clientes.find? (fun x => x.id == req0.cliente_id) = some ⟨1, "Maria", "5588", none⟩
    ∧ ∃ row, row ∈ (criar_agendamento ⟨"", "cal-1"⟩ provTest storeW req0).store.agendamentos
      ∧ row.id = storeW.nextId
      ∧ row.cliente_id = req0.cliente_id
      ∧ row.data_consulta = req0.data
      ∧ row.hora_consulta = req0.hora
      ∧ row.tipo_consulta = req0.tipo
      ∧ row.status = "ativo"
      ∧ (criar_agendamento ⟨"", "cal-1"⟩ provTest storeW req0).resp = ⟨true, storeW.nextId⟩
      ∧ ∀ e, (criar_agendamento ⟨"", "cal-1"⟩ provTest storeW req0).calResult = Except.error e →
          row.google_event_id = none :=
  ⟨by decide,
   criar_agendamento_row_persisted ⟨"", "cal-1"⟩ provTest storeW req0
     ⟨1, "Maria", "5588", none⟩ (by decide)⟩

/-- C4 counterexample: on a concrete create request the trace contains both a
Calendar Client call and a commit, yet no commit precedes the calendar call —
the commit comes after it, refuting the claim that the store transaction is
committed before the calendar create call. -/
theorem commit_before_calendar_counterexample :
    commitPrecedesCal (criar_agendamento ⟨"", ""⟩ provTest storeW req0).trace = false
    ∧ (criar_agendamento ⟨"", ""⟩ provTest storeW req0).trace.any isCalCreate = true
    ∧ (criar_agendamento ⟨"", ""⟩ provTest storeW req0).trace.any isCommit = true := by
  decide

/-- C4 (amended): in every execution of the create workflow the appointment
INSERT precedes the Calendar Client create call, and the commit comes only
after that call — the calendar call is made inside the still-open transaction,
and the commit follows regardless of the calendar outcome. -/
theorem calendar_call_inside_transaction (cfg : Config) (prov : Provider) (store : Store)
    (req : AgendamentoCreate) :
    ((criar_agendamento cfg prov store req).trace.takeWhile (fun e => !(isCommit e))).any
        isCalCreate = true
    ∧ ((criar_agendamento cfg prov store req).trace.takeWhile (fun e => !(isCalCreate e))).any
        isInsert = true
    ∧ commitPrecedesCal (criar_agendamento cfg prov store req).trace = false := by
  simp only [criar_agendamento]
  split <;>
    simp [commitPrecedesCal, isCommit, isCalCreate, isInsert, List.takeWhile, List.any]

/-- C3 counterexample: an appointment whose stored reference is non-null but
empty — `google_event_id = some ""` — receives a cancel request and triggers
NO delete call, refuting the claim for every non-null stored reference. -/
theorem atualizar_status_empty_ref_counterexample :
    ((Store.mk [] [⟨1, 1, "2025-01-06", "08:00", "retorno", "ativo", none, some ""⟩] 2).agendamentos.find?
        (fun a => a.id == 1) =
      some ⟨1, 1, "2025-01-06", "08:00", "retorno", "ativo", none, some ""⟩)
    ∧ (some "" : Option String) ≠ none
    ∧ (atualizar_status ⟨[], [⟨1, 1, "2025-01-06", "08:00", "retorno", "ativo", none, some ""⟩], 2⟩
        1 "cancelado").clientCalls = [] := by
  decide

/-- C3 (amended): for every appointment whose stored reference is non-null and
non-empty, a cancel request (status update to `"cancelado"`) passes exactly
one delete call to the Calendar Client, with exactly the stored reference. -/
theorem atualizar_status_cancel_one_delete (store : Store) (id : Nat) (r : Agendamento)
    (eid : String)
    (hfind : store.agendamentos.find? (fun a => a.id == id) = some r)
    (heid : r.google_event_id = some eid) (hne : eid ≠ "") :
    (atualizar_status store id "cancelado").clientCalls = [eid] := by
  unfold atualizar_status
  rw [hfind]
  simp [truthyVal, heid, hne]

/-- Witness for C3's theorem: cancelling the fixture appointment whose stored
reference is `"EV9"` passes exactly `["EV9"]` to the Calendar Client. -/
theorem atualizar_status_cancel_one_delete_witness :
    ((Store.mk [] [⟨1, 1, "2025-01-06", "08:00", "retorno", "ativo", none, some "EV9"⟩] 2).agendamentos.find?
        (fun a => a.id == 1) =
      some ⟨1, 1, "2025-01-06", "08:00", "retorno", "ativo", none, some "EV9"⟩)
    ∧ (atualizar_status ⟨[], [⟨1, 1, "2025-01-06", "08:00", "retorno", "ativo", none, some "EV9"⟩], 2⟩
        1 "cancelado").clientCalls = ["EV9"] :=
  ⟨by decide,
   atualizar_status_cancel_one_delete
     ⟨[], [⟨1, 1, "2025-01-06", "08:00", "retorno", "ativo", none, some "EV9"⟩], 2⟩ 1
     ⟨1, 1, "2025-01-06", "08:00", "retorno", "ativo", none, some "EV9"⟩ "EV9"
     (by decide) rfl (by decide)⟩

/-- C6: the event update fetches the existing event and overlays only the
provided non-empty fields — the start/end pair is recomputed (start = the new
date+time, end = start + duration) exactly when date and time are both given,
and an absent title or description leaves the fetched event's field unchanged
(attendees are never touched). -/
theorem atualizar_evento_overlay (cfg : Config) (prov : Provider) (event_id : String)
    (data hora titulo descricao : Option String) (dur : Nat) (ev : Evento)
    (hcreds : cfg.credsJson ≠ "")
    (hget : prov.get cfg.calendarId event_id = .ok ev) :
    ∃ ev2,
      atualizar_evento cfg prov event_id data hora titulo descricao dur =
        ([CalCall.get cfg.calendarId event_id, CalCall.update cfg.calendarId event_id ev2],
         match prov.update cfg.calendarId event_id ev2 with
         | .ok _ => .ok true
         | .error e => .error e)
      ∧ (∀ t, truthyVal titulo = some t → ev2.summary = t)
      ∧ (truthyVal titulo = none → ev2.summary = ev.summary)
      ∧ (∀ s, truthyVal descricao = some s → ev2.description = s)
      ∧ (truthyVal descricao = none → ev2.description = ev.description)
      ∧ (∀ d h, truthyVal data = some d → truthyVal hora = some h →
          ev2.start = ⟨strptimeMin d h, timeZoneFixa⟩
          ∧ ev2.end_ = ⟨strptimeMin d h + dur, timeZoneFixa⟩)
      ∧ ((truthyVal data = none ∨ truthyVal hora = none) →
          ev2.start = ev.start ∧ ev2.end_ = ev.end_)
      ∧ ev2.attendees = ev.attendees := by
  simp only [atualizar_evento, get_service, if_neg hcreds, hget]
  rcases ht : truthyVal titulo with _ | t <;>
    rcases hs : truthyVal descricao with _ | s <;>
      rcases hd : truthyVal data with _ | d <;>
        rcases hh : truthyVal hora with _ | h <;>
          exact ⟨_, rfl, by simp_all⟩

/-- Witness for C6's theorem: updating only date and time of the fixture event
recomputes start/end and keeps title and description. -/
theorem atualizar_evento_overlay_witness :
    cfgOk.credsJson ≠ ""
    ∧ provTest.get cfgOk.calendarId "EV1" = .ok ev0
    ∧ ∃ ev2,
        atualizar_evento cfgOk provTest "EV1" (some "2025-01-07") (some "09:00") none none 60 =
          ([CalCall.get cfgOk.calendarId "EV1", CalCall.update cfgOk.calendarId "EV1" ev2],
           match provTest.update cfgOk.calendarId "EV1" ev2 with
           | .ok _ => .ok true
           | .error e => .error e)
        ∧ ev2.summary = ev0.summary
        ∧ ev2.description = ev0.description
        ∧ ev2.start = ⟨strptimeMin "2025-01-07" "09:00", timeZoneFixa⟩
        ∧ ev2.end_ = ⟨strptimeMin "2025-01-07" "09:00" + 60, timeZoneFixa⟩ := by
  refine ⟨by decide, rfl, ?_⟩
  obtain ⟨ev2, heq, _, htn, _, hdn, hdt, _, _⟩ :=
    atualizar_evento_overlay cfgOk provTest "EV1" (some "2025-01-07") (some "09:00") none none
      60 ev0 (by decide) rfl
  obtain ⟨hst, hen⟩ := hdt "2025-01-07" "09:00" (by decide) (by decide)
  exact ⟨ev2, heq, htn rfl, hdn rfl, hst, hen⟩

/-- The inner slot loop, closed form: append the day's free slots and truncate
to the requested count, signalling early return exactly when the count was
reached. -/
theorem addSlots_eq (q d : Nat) (oc : List String) :
    ∀ (hs : List String) (acc : List Slot), acc.length < q →
      addSlots q d oc hs acc =
        ((acc ++ freeSlotsDia d oc hs).take q,
         decide (q ≤ (acc ++ freeSlotsDia d oc hs).length)) := by
  intro hs
  induction hs with
  | nil =>
    intro acc hlt
    have hnil : freeSlotsDia d oc [] = [] := rfl
    rw [addSlots, hnil, List.append_nil, List.take_of_length_le (Nat.le_of_lt hlt),
      decide_eq_false (Nat.not_le.mpr hlt)]
  | cons hora hs ih =>
    intro acc hlt
    rw [addSlots]
    by_cases hmem : hora ∈ oc
    · rw [if_pos hmem]
      have hfree : freeSlotsDia d oc (hora :: hs) = freeSlotsDia d oc hs := by
        simp [freeSlotsDia, List.filter_cons, hmem]
      rw [hfree]
      exact ih acc hlt
    · rw [if_neg hmem]
      have hfree : freeSlotsDia d oc (hora :: hs) = (d, hora) :: freeSlotsDia d oc hs := by
        simp [freeSlotsDia, List.filter_cons, hmem]
      rw [hfree]
      by_cases hq : q ≤ (acc ++ [(d, hora)]).length
      · rw [if_pos hq]
        have hle : (acc ++ [(d, hora)]).length ≤ q := by
          simp only [List.length_append, List.length_singleton]
          omega
        have hassoc : acc ++ (d, hora) :: freeSlotsDia d oc hs =
            (acc ++ [(d, hora)]) ++ freeSlotsDia d oc hs := by simp
        have hflag : q ≤ ((acc ++ [(d, hora)]) ++ freeSlotsDia d oc hs).length := by
          simp only [List.length_append] at hq ⊢
          omega
        rw [hassoc, List.take_append_of_le_length hq, List.take_of_length_le hle,
          decide_eq_true hflag]
      · rw [if_neg hq]
        have hlt2 : (acc ++ [(d, hora)]).length < q := by
          simp only [List.length_append, List.length_singleton] at hq ⊢
          omega
        rw [ih (acc ++ [(d, hora)]) hlt2]
        have hassoc : (acc ++ [(d, hora)]) ++ freeSlotsDia d oc hs =
            acc ++ (d, hora) :: freeSlotsDia d oc hs := by simp
        rw [hassoc]

/-- The outer day loop, closed form: the result is the concatenation of all
days' free slots truncated to the requested count, as long as the accumulated
result has not yet reached the count. -/
theorem loopDias_eq (busy : Nat → List String) (q : Nat) :
    ∀ (ds : List Nat) (acc : List Slot), acc.length < q →
      loopDias busy q ds acc = (acc ++ daysSlots busy ds).take q := by
  intro ds
  induction ds with
  | nil =>
    intro acc hlt
    rw [loopDias, daysSlots, List.append_nil, List.take_of_length_le (Nat.le_of_lt hlt)]
  | cons d ds ih =>
    intro acc hlt
    rw [loopDias, daysSlots]
    by_cases hw : d % 7 ≥ 5
    · rw [if_pos hw, if_pos hw]
      simp only [List.nil_append]
      exact ih acc hlt
    · rw [if_neg hw, if_neg hw, addSlots_eq q d (busy d) HORARIOS acc hlt]
      by_cases hq : q ≤ (acc ++ freeSlotsDia d (busy d) HORARIOS).length
      · rw [decide_eq_true hq]
        show (acc ++ freeSlotsDia d (busy d) HORARIOS).take q = _
        rw [← List.append_assoc]
        exact (List.take_append_of_le_length hq).symm
      · have hlt2 : (acc ++ freeSlotsDia d (busy d) HORARIOS).length < q := Nat.lt_of_not_le hq
        rw [decide_eq_false hq, List.take_of_length_le (Nat.le_of_lt hlt2)]
        show loopDias busy q ds (acc ++ freeSlotsDia d (busy d) HORARIOS) = _
        rw [ih _ hlt2, List.append_assoc]

/-- The slot search, closed form, for any positive count. -/
theorem proximos_eq (busy : Nat → List String) (hoje q : Nat) (hq : 1 ≤ q) :
    proximos_slots_disponiveis_calendar busy hoje q =
      (daysSlots busy ((List.range 30).map (fun i => hoje + i))).take q := by
  have h := loopDias_eq busy q ((List.range 30).map (fun i => hoje + i)) [] (by simpa using hq)
  simpa [proximos_slots_disponiveis_calendar] using h

/-- Every slot contributed by the day list carries one of its days as date,
and that day is not a weekend. -/
theorem mem_daysSlots (busy : Nat → List String) :
    ∀ (ds : List Nat) (s : Slot), s ∈ daysSlots busy ds →
      ∃ d, d ∈ ds ∧ s.1 = d ∧ d % 7 < 5 := by
  intro ds
  induction ds with
  | nil => intro s hs; rw [daysSlots] at hs; simp at hs
  | cons d ds ih =>
    intro s hs
    rw [daysSlots] at hs
    rcases List.mem_append.mp hs with h | h
    · by_cases hw : d % 7 ≥ 5
      · rw [if_pos hw] at h
        simp at h
      · rw [if_neg hw] at h
        simp only [freeSlotsDia] at h
        rcases List.mem_map.mp h with ⟨hora, _, heq⟩
        refine ⟨d, by simp, ?_, Nat.lt_of_not_le hw⟩
        rw [← heq]
    · rcases ih s h with ⟨d2, hd2, h1, h2⟩
      exact ⟨d2, by simp [hd2], h1, h2⟩

/-- The fixed candidate list is ordered by minute-of-day. -/
theorem pairwise_horarios :
    List.Pairwise (fun a b => horaToMin a ≤ horaToMin b) HORARIOS := by decide

/-- A single day's free slots are (date, time) ordered. -/
theorem pairwise_freeSlotsDia (d : Nat) (oc : List String) :
    List.Pairwise slotLe (freeSlotsDia d oc HORARIOS) := by
  unfold freeSlotsDia
  rw [List.pairwise_map]
  exact (pairwise_horarios.filter _).imp (fun h => Or.inr ⟨rfl, h⟩)

/-- The concatenation of slot blocks over a strictly increasing day list is
(date, time) ordered. -/
theorem pairwise_daysSlots (busy : Nat → List String) :
    ∀ ds : List Nat, List.Pairwise (· < ·) ds → List.Pairwise slotLe (daysSlots busy ds) := by
  intro ds
  induction ds with
  | nil => intro _; rw [daysSlots]; exact List.Pairwise.nil
  | cons d ds ih =>
    intro hp
    rw [daysSlots, List.pairwise_append]
    rcases List.pairwise_cons.mp hp with ⟨hd, hp2⟩
    refine ⟨?_, ih hp2, ?_⟩
    · by_cases hw : d % 7 ≥ 5
      · rw [if_pos hw]; exact List.Pairwise.nil
      · rw [if_neg hw]; exact pairwise_freeSlotsDia d (busy d)
    · intro a ha b hb
      rcases mem_daysSlots busy ds b hb with ⟨d2, hd2, hb1, _⟩
      by_cases hw : d % 7 ≥ 5
      · rw [if_pos hw] at ha; simp at ha
      · rw [if_neg hw] at ha
        simp only [freeSlotsDia] at ha
        rcases List.mem_map.mp ha with ⟨hora, _, heq⟩
        have ha1 : a.1 = d := by rw [← heq]
        exact Or.inl (by rw [ha1, hb1]; exact hd d2 hd2)

/-- C2 counterexample: with count 0 and an everywhere-free calendar, the
search still returns one slot — the count check runs only after a slot is
appended — refuting "never more than n" at n = 0. -/
theorem proximos_slots_quantidade_zero_counterexample :
    proximos_slots_disponiveis_calendar (fun _ => []) 0 0 = [(0, "08:00")]
    ∧ ¬ (proximos_slots_disponiveis_calendar (fun _ => []) 0 0).length ≤ 0 := by
  decide

/-- C2 (amended): for every count n ≥ 1 and every busy-set assignment, the
slot search returns no Saturday or Sunday slot, at most n slots, and a
(date, time) non-decreasing sequence. -/
theorem proximos_slots_props (busy : Nat → List String) (hoje q : Nat) (hq : 1 ≤ q) :
    (∀ s ∈ proximos_slots_disponiveis_calendar busy hoje q, s.1 % 7 < 5)
    ∧ (proximos_slots_disponiveis_calendar busy hoje q).length ≤ q
    ∧ List.Pairwise slotLe (proximos_slots_disponiveis_calendar busy hoje q) := by
  rw [proximos_eq busy hoje q hq]
  refine ⟨?_, List.length_take_le q _, ?_⟩
  · intro s hs
    have hs2 := List.take_subset q _ hs
    rcases mem_daysSlots busy _ s hs2 with ⟨d, _, h1, h2⟩
    rw [h1]; exact h2
  · have hplt : List.Pairwise (· < ·) ((List.range 30).map (fun i => hoje + i)) := by
      rw [List.pairwise_map]
      exact (List.pairwise_lt_range 30).imp (fun h => Nat.add_lt_add_left h hoje)
    exact (pairwise_daysSlots busy _ hplt).sublist (List.take_sublist q _)

/-- Witness for C2's theorem at count 1, a Monday start, and an empty busy
assignment. -/
theorem proximos_slots_props_witness :
    1 ≤ 1
    ∧ ((∀ s ∈ proximos_slots_disponiveis_calendar (fun _ => []) 0 1, s.1 % 7 < 5)
      ∧ (proximos_slots_disponiveis_calendar (fun _ => []) 0 1).length ≤ 1
      ∧ List.Pairwise slotLe (proximos_slots_disponiveis_calendar (fun _ => []) 0 1)) :=
  ⟨Nat.le_refl 1, proximos_slots_props (fun _ => []) 0 1 (Nat.le_refl 1)⟩
